import Mathlib

/-!
Verification of the EntityMind occupancy backend (src/backend/server.py).

The development shallow-embeds the data model and the request handlers of
server.py: Mongo collections become Lean lists of records, the Redis cache
key "current_count" becomes an optional string cell, WebSocket connections
become a list of subscriber records, and each handler becomes a pure
function from its inputs and the server state to a response and an updated
state.  Timestamps are naturals (seconds); `datetime.utcnow()` values are
passed in explicitly.  External collaborators (OpenCV decode/detection, the
Python `str`/`int` conversions, and the SHA-256 digest from hashlib) are
embedded executably: SHA-256 is implemented in full below, and the decimal
string encoding mirrors Python's `str` on integers.
-/

/-! ### Decimal encoding of integers

Python's `str(count)` / `int(s)` pair, used for the Redis value of the
"current_count" key (server.py lines 142, 274, 339-343, 402, 430-434) and
for the `f"simulated_{i}"` placeholders (line 410).  `digitsRev` produces
the base-10 digits least-significant first, with the first argument acting
as structural fuel (any fuel at least `n` gives the digits of `n`). -/

def digitChar (d : Nat) : Char := Char.ofNat (48 + d)

def charVal (c : Char) : Nat := c.toNat - 48

def digitsRev : Nat → Nat → List Nat
  | 0, _ => []
  | f + 1, n => if n = 0 then [] else n % 10 :: digitsRev f (n / 10)

def unDigitsRev : List Nat → Nat
  | [] => 0
  | d :: ds => d + 10 * unDigitsRev ds

def natChars (n : Nat) : List Char :=
  if n = 0 then ['0'] else ((digitsRev n n).map digitChar).reverse

def natStr (n : Nat) : String := ⟨natChars n⟩

def natFromChars (cs : List Char) : Nat :=
  cs.foldl (fun acc c => 10 * acc + charVal c) 0

def intChars (i : Int) : List Char :=
  if i < 0 then '-' :: natChars i.natAbs else natChars i.natAbs

def intStr (i : Int) : String := ⟨intChars i⟩

def intFromChars (cs : List Char) : Int :=
  if cs.head? = some '-' then -(natFromChars cs.tail : Int) else (natFromChars cs : Int)

def strInt (s : String) : Int := intFromChars s.data

/-! ### SHA-256

`anonymize_face_embedding` (server.py lines 175-179) digests the salted
string encoding of a descriptor with `hashlib.sha256(...).hexdigest()`.
The digest is embedded in full as a pure function over byte lists (bytes
and 32-bit words are naturals reduced mod 2^8 / 2^32).  The fuel arguments
of the helpers are structural recursion bounds; every call site passes
enough fuel.  The implementation matches the FIPS 180-4 test vectors
(e.g. the digest of "abc"). -/

def M32 : Nat := 4294967296

def rotr (n x : Nat) : Nat := ((x >>> n) ||| (x <<< (32 - n))) % M32

def shaK : List Nat :=
  [1116352408, 1899447441, 3049323471, 3921009573, 961987163,
   1508970993, 2453635748, 2870763221, 3624381080, 310598401,
   607225278, 1426881987, 1925078388, 2162078206, 2614888103,
   3248222580, 3835390401, 4022224774, 264347078, 604807628,
   770255983, 1249150122, 1555081692, 1996064986, 2554220882,
   2821834349, 2952996808, 3210313671, 3336571891, 3584528711,
   113926993, 338241895, 666307205, 773529912, 1294757372,
   1396182291, 1695183700, 1986661051, 2177026350, 2456956037,
   2730485921, 2820302411, 3259730800, 3345764771, 3516065817,
   3600352804, 4094571909, 275423344, 430227734, 506948616,
   659060556, 883997877, 958139571, 1322822218, 1537002063,
   1747873779, 1955562222, 2024104815, 2227730452, 2361852424,
   2428436474, 2756734187, 3204031479, 3329325298]

def shaH0 : List Nat :=
  [1779033703, 3144134277, 1013904242, 2773480762, 1359893119,
   2600822924, 528734635, 1541459225]

def extendLoop : Nat → List Nat → List Nat
  | 0, w => w
  | f + 1, w =>
    let i := w.length
    let w15 := w.getD (i - 15) 0
    let w2 := w.getD (i - 2) 0
    let s0 := rotr 7 w15 ^^^ rotr 18 w15 ^^^ (w15 >>> 3)
    let s1 := rotr 17 w2 ^^^ rotr 19 w2 ^^^ (w2 >>> 10)
    extendLoop f (w ++ [(w.getD (i - 16) 0 + s0 + w.getD (i - 7) 0 + s1) % M32])

def compressStep (st : List Nat) (kw : Nat × Nat) : List Nat :=
  match st with
  | [a, b, c, d, e, f, g, h] =>
    let S1 := rotr 6 e ^^^ rotr 11 e ^^^ rotr 25 e
    let ch := (e &&& f) ^^^ ((e ^^^ (M32 - 1)) &&& g)
    let t1 := (h + S1 + ch + kw.1 + kw.2) % M32
    let S0 := rotr 2 a ^^^ rotr 13 a ^^^ rotr 22 a
    let maj := (a &&& b) ^^^ (a &&& c) ^^^ (b &&& c)
    let t2 := (S0 + maj) % M32
    [(t1 + t2) % M32, a, b, c, (d + t1) % M32, e, f, g]
  | _ => st

def wordsBE : List Nat → List Nat
  | b0 :: b1 :: b2 :: b3 :: rest => (((b0 * 256 + b1) * 256 + b2) * 256 + b3) :: wordsBE rest
  | _ => []

def compressChunk (h : List Nat) (chunk : List Nat) : List Nat :=
  let w := extendLoop 48 (wordsBE chunk)
  let st := (shaK.zip w).foldl compressStep h
  (h.zip st).map (fun p => (p.1 + p.2) % M32)

def bytesBE : Nat → Nat → List Nat
  | 0, _ => []
  | k + 1, n => bytesBE k (n / 256) ++ [n % 256]

def padMsg (msg : List Nat) : List Nat :=
  let L := msg.length
  msg ++ [0x80] ++ List.replicate ((119 - L % 64) % 64) 0 ++ bytesBE 8 (8 * L)

def chunk64 : Nat → List Nat → List (List Nat)
  | 0, _ => []
  | _, [] => []
  | f + 1, bs => bs.take 64 :: chunk64 f (bs.drop 64)

def sha256Words (msg : List Nat) : List Nat :=
  let padded := padMsg msg
  (chunk64 padded.length padded).foldl compressChunk shaH0

def hexDigitChar (n : Nat) : Char :=
  if n < 10 then Char.ofNat (48 + n) else Char.ofNat (87 + n)

def wordHex : Nat → Nat → List Char
  | 0, _ => []
  | k + 1, n => wordHex k (n / 16) ++ [hexDigitChar (n % 16)]

def sha256Hex (msg : List Nat) : String :=
  String.mk ((sha256Words msg).foldr (fun w acc => wordHex 8 w ++ acc) [])

/-- UTF-8 bytes of a string.  Every string the server digests (Python float
list reprs plus the ASCII salt) is ASCII, where the byte sequence is the
code-point sequence. -/
def asciiBytes (s : String) : List Nat := s.data.map Char.toNat

/-! ### Fingerprint derivation

server.py lines 36-37 (environment defaults) and 175-179.  A descriptor is
the numeric vector the detector hands over (`face_descriptor.tolist()`,
line 229); it is modelled as a list of rationals.  `pyListStr` mirrors
Python's `str` on a list of floats: float values with integral value print
as "1.0", "2.0", ... exactly as Python prints them; non-integral rationals
get a canonical num/den fallback (only determinism and distinctness of the
encoding matter, and every concrete descriptor used below is integral, so
the digested strings are byte-for-byte the ones the Python code digests). -/

def ANONYMIZATION_SALT : String := "your-anonymization-salt"

/-- FACE_RECOGNITION_THRESHOLD (line 37, default 0.6).  The handlers never
read it: no similarity computation exists anywhere in server.py (the
`cosine_similarity` import on line 19 is unused). -/
def FACE_RECOGNITION_THRESHOLD : ℚ := 3 / 5

def pyFloatStr (q : ℚ) : String :=
  if q.den = 1 then ⟨intChars q.num ++ ['.', '0']⟩
  else ⟨intChars q.num ++ ['/'] ++ natChars q.den⟩

def pyListStr (ds : List ℚ) : String :=
  "[" ++ String.intercalate ", " (ds.map pyFloatStr) ++ "]"

/-- server.py lines 175-179: SHA-256 hexdigest of `str(face_data)` with the
process-wide salt appended. -/
def anonymize_face_embedding (face_data : List ℚ) : String :=
  sha256Hex (asciiBytes (pyListStr face_data ++ ANONYMIZATION_SALT))

/-- Dot product of two descriptors (ℚ). -/
def dotQ (a b : List ℚ) : ℚ := (a.zip b).foldl (fun s p => s + p.1 * p.2) 0

/-- Cosine similarity of `a` and `b` strictly exceeds the threshold `t`
(for 0 ≤ t), stated in squared form to stay inside ℚ:
dot/(√(aa)·√(bb)) > t  ⟺  dot > 0 ∧ dot² > t²·aa·bb  when both norms are
nonzero.  This is the similarity the spec's registry design would compute;
server.py itself never computes any similarity. -/
def cos_sim_exceeds (a b : List ℚ) (t : ℚ) : Prop :=
  0 < dotQ a b ∧ t ^ 2 * (dotQ a a * dotQ b b) < dotQ a b ^ 2

instance (a b : List ℚ) (t : ℚ) : Decidable (cos_sim_exceeds a b t) := by
  unfold cos_sim_exceeds; infer_instance

/-! ### Server data model

Mongo documents (server.py lines 79-89 and the shapes actually inserted in
lines 265-270, 277-282, 406-411), the Redis "current_count" cell, and the
WebSocket connection list of `ConnectionManager` (lines 92-113). -/

/-- A broadcast/tick message: `json.dumps({"count": ..., "timestamp": ...})`
(lines 285-288, 414-417, 436-439).  JSON serialization is transport; the
two fields are modelled directly. -/
structure Msg where
  count : Int
  timestamp : Nat
deriving DecidableEq, Repr

/-- One WebSocket connection held in `ConnectionManager.active_connections`.
`failing` marks a connection whose `send_text` raises; `inbox` collects the
messages successfully delivered to it. -/
structure Subscriber where
  sid : Nat
  failing : Bool
  inbox : List Msg
deriving DecidableEq, Repr

/-- A `face_embeddings` document (lines 265-270). -/
structure FaceEmbeddingDoc where
  embedding_hash : String
  first_seen : Nat
  last_seen : Nat
  count : Nat
deriving DecidableEq, Repr

/-- A `people_counts` document (lines 277-282, 406-411). -/
structure PeopleCountDoc where
  count : Int
  timestamp : Nat
  zone_id : String
  anonymized_faces : List String
deriving DecidableEq, Repr

/-- One element of `face_data` (lines 231-235). -/
structure FaceRecord where
  hash : String
  bbox : List Nat
  confidence : ℚ
deriving DecidableEq, Repr

/-- One face the OpenCV detector reports for a decoded frame: its bounding
box and the flattened histogram descriptor (lines 220-226).  Detection is
an external collaborator; its output is the input of the embedded path. -/
structure Detection where
  bbox : List Nat
  descriptor : List ℚ
deriving DecidableEq, Repr

structure ServerState where
  face_embeddings : List FaceEmbeddingDoc
  people_counts : List PeopleCountDoc
  current_count : Option String
  connections : List Subscriber
deriving DecidableEq, Repr

/-- State after `init_db` (line 142 sets the Redis key to "0"). -/
def initialState : ServerState :=
  { face_embeddings := [], people_counts := [], current_count := some (intStr 0),
    connections := [] }

/-- A handler outcome: a successful JSON body or a raised `HTTPException`
with status code and detail. -/
inductive ApiResult (α : Type) where
  | ok : α → ApiResult α
  | httpError : Nat → String → ApiResult α
deriving DecidableEq, Repr

/-! ### ConnectionManager (lines 92-113) -/

/-- `broadcast` (lines 106-111): iterate over the connection list and
`send_text` to each one inside `try/except: pass` — a failing send is
swallowed and the list itself is never mutated. -/
def ConnectionManager.broadcast (message : Msg) (conns : List Subscriber) : List Subscriber :=
  conns.map fun c => if c.failing then c else { c with inbox := c.inbox ++ [message] }

/-! ### update_face_database (lines 242-293) and the frame path -/

/-- Mongo `update_one` on the first document matching the hash: set
`last_seen`, increment `count` (lines 256-262). -/
def mongo_update_first : List FaceEmbeddingDoc → String → Nat → List FaceEmbeddingDoc
  | [], _, _ => []
  | e :: rest, h, t =>
    if e.embedding_hash = h then { e with last_seen := t, count := e.count + 1 } :: rest
    else e :: mongo_update_first rest h t

/-- One iteration of the loop over `face_data` (lines 248-270): `find_one`
by hash, then either update the existing document or insert a fresh one
with `first_seen = last_seen = now` and `count = 1`. -/
def upsert_face (db : List FaceEmbeddingDoc) (h : String) (t : Nat) : List FaceEmbeddingDoc :=
  if db.any (fun e => e.embedding_hash == h) then mongo_update_first db h t
  else db ++ [{ embedding_hash := h, first_seen := t, last_seen := t, count := 1 }]

/-- `update_face_database` (lines 242-293): upsert every face, then set the
Redis count to `unique_faces = len(face_data)` (lines 272-274 — the length
of the list, duplicate hashes included), insert a `people_counts` snapshot,
and broadcast.  Returns the count it computed. -/
def update_face_database (face_data : List FaceRecord) (t : Nat) (st : ServerState) :
    Int × ServerState :=
  let db := face_data.foldl (fun db f => upsert_face db f.hash t) st.face_embeddings
  let unique_faces : Int := (face_data.length : Int)
  let snapshot : PeopleCountDoc :=
    { count := unique_faces, timestamp := t, zone_id := "default",
      anonymized_faces := face_data.map (·.hash) }
  (unique_faces,
   { face_embeddings := db,
     people_counts := st.people_counts ++ [snapshot],
     current_count := some (intStr unique_faces),
     connections := ConnectionManager.broadcast { count := unique_faces, timestamp := t }
       st.connections })

/-- `process_frame_for_faces` (lines 210-240): one `face_data` record per
detected face; the hash anonymizes the histogram descriptor, the
confidence is the mock 0.8. -/
def process_frame_for_faces (faces : List Detection) : List FaceRecord :=
  faces.map fun f =>
    { hash := anonymize_face_embedding f.descriptor, bbox := f.bbox, confidence := 4 / 5 }

structure FrameResponse where
  status : String
  faces_detected : Nat
  current_count : Int
  faces : List FaceRecord
deriving DecidableEq, Repr

/-- The `try` block of `process_frame` (lines 370-392).  The input is the
result of `cv2.imdecode`: `none` when the payload is not a decodable image
(the code then raises HTTPException 400 "Invalid image format", line 379,
before touching any state), otherwise the detections of the decoded
frame. -/
def process_frame_try (decoded : Option (List Detection)) (t : Nat) (st : ServerState) :
    ApiResult FrameResponse × ServerState :=
  match decoded with
  | none => (.httpError 400 "Invalid image format", st)
  | some frame =>
    let face_data := process_frame_for_faces frame
    let (count, st') := update_face_database face_data t st
    (.ok { status := "processed", faces_detected := face_data.length, current_count := count,
           faces := face_data }, st')

/-- `process_frame` (lines 367-395): the whole body runs inside
`try/except Exception`, and FastAPI's `HTTPException` is a subclass of
`Exception`, so the 400 raised on decode failure is caught by the handler
on lines 393-395 and replaced by HTTPException 500 "Frame processing
failed".  The only raise site precedes every state mutation, so the state
escapes unchanged. -/
def process_frame (decoded : Option (List Detection)) (t : Nat) (st : ServerState) :
    ApiResult FrameResponse × ServerState :=
  match process_frame_try decoded t st with
  | (.ok r, st') => (.ok r, st')
  | (.httpError _ _, _) => (.httpError 500 "Frame processing failed", st)

/-! ### Count queries, simulation, broadcast tick -/

structure CountResponse where
  count : Int
  timestamp : Nat
deriving DecidableEq, Repr

/-- `get_current_count` (lines 334-348).  The Redis read is passed in as an
`Except`: `.error` is a storage outage (`redis_client.get` raising), which
the bare `except` on lines 346-348 converts into a successful `{"count": 0}`
body; `.ok none` is an absent key (default 0, lines 340-341); `.ok (some s)`
is parsed with `int(s)` (line 343). -/
def get_current_count (redis_get : Except Unit (Option String)) (t : Nat) :
    ApiResult CountResponse :=
  match redis_get with
  | .error _ => .ok { count := 0, timestamp := t }
  | .ok none => .ok { count := 0, timestamp := t }
  | .ok (some s) => .ok { count := strInt s, timestamp := t }

/-- `get_count_history` (lines 350-365): Mongo `find` on
`timestamp ≥ now - 24h`, `sort("timestamp", -1)`, `limit(100)`. -/
def snapshot_le (a b : PeopleCountDoc) : Bool := decide (b.timestamp ≤ a.timestamp)

def get_count_history (t : Nat) (st : ServerState) : List PeopleCountDoc :=
  ((st.people_counts.filter fun s => decide (t - 24 * 3600 ≤ s.timestamp)).mergeSort
    snapshot_le).take 100

structure SimulateResponse where
  status : String
  count : Int
deriving DecidableEq, Repr

/-- `simulate_count` (lines 397-422): write `str(count)` to Redis, insert a
snapshot whose `anonymized_faces` are `[f"simulated_{i}" for i in
range(count)]` (empty when count ≤ 0, since Python's `range` of a
non-positive integer is empty), broadcast, and echo the count. -/
def simulate_count (count : Int) (t : Nat) (st : ServerState) :
    ApiResult SimulateResponse × ServerState :=
  let snapshot : PeopleCountDoc :=
    { count := count, timestamp := t, zone_id := "default",
      anonymized_faces := (List.range count.toNat).map fun i => "simulated_" ++ natStr i }
  (.ok { status := "success", count := count },
   { st with current_count := some (intStr count),
             people_counts := st.people_counts ++ [snapshot],
             connections := ConnectionManager.broadcast { count := count, timestamp := t }
               st.connections })

/-- One iteration of the `websocket_live_count` loop (lines 428-440): read
the Redis key, default 0 when absent, parse with `int`, and send the
message to the connected socket. -/
def websocket_tick_message (st : ServerState) (t : Nat) : Msg :=
  match st.current_count with
  | none => { count := 0, timestamp := t }
  | some s => { count := strInt s, timestamp := t }

/-- The spec's Identity invariants (spec §3): `occurrence_count ≥ 1` and
`last_seen ≥ first_seen`.  In server.py the fields are `count`,
`first_seen`, `last_seen` of a `face_embeddings` document. -/
def identity_inv (e : FaceEmbeddingDoc) : Prop :=
  1 ≤ e.count ∧ e.first_seen ≤ e.last_seen

/-! ### Helper lemmas: decimal round trip and the SHA-256 test vector -/

theorem unDigitsRev_digitsRev (f : Nat) : ∀ n, n ≤ f → unDigitsRev (digitsRev f n) = n := by
  induction f with
  | zero => intro n hn; interval_cases n; rfl
  | succ f ih =>
    intro n hn
    by_cases h0 : n = 0
    · subst h0; simp [digitsRev, unDigitsRev]
    · have hdiv : n / 10 ≤ f := by omega
      simp only [digitsRev, h0, if_false, unDigitsRev, ih _ hdiv]
      omega

theorem digitsRev_lt_ten (f : Nat) : ∀ n d, d ∈ digitsRev f n → d < 10 := by
  induction f with
  | zero => intro n d hd; simp [digitsRev] at hd
  | succ f ih =>
    intro n d hd
    by_cases h0 : n = 0
    · simp [digitsRev, h0] at hd
    · simp only [digitsRev, h0, if_false, List.mem_cons] at hd
      rcases hd with h | h
      · omega
      · exact ih _ _ h

theorem charVal_digitChar {d : Nat} (hd : d < 10) : charVal (digitChar d) = d := by
  interval_cases d <;> decide

theorem natFromChars_natChars (n : Nat) : natFromChars (natChars n) = n := by
  by_cases h0 : n = 0
  · subst h0; decide
  · unfold natChars natFromChars
    rw [if_neg h0, List.foldl_reverse, List.foldr_map]
    have key : ∀ ds : List Nat, (∀ d ∈ ds, d < 10) →
        List.foldr (fun d acc => 10 * acc + charVal (digitChar d)) 0 ds = unDigitsRev ds := by
      intro ds
      induction ds with
      | nil => intro _; rfl
      | cons d ds ih =>
        intro hall
        simp only [List.foldr_cons, unDigitsRev,
          ih (fun x hx => hall x (List.mem_cons_of_mem _ hx)),
          charVal_digitChar (hall d (List.mem_cons_self d ds))]
        omega
    rw [key _ (digitsRev_lt_ten n n), unDigitsRev_digitsRev n n le_rfl]

theorem natChars_injective : Function.Injective natChars := by
  intro a b h
  have := congrArg natFromChars h
  rwa [natFromChars_natChars, natFromChars_natChars] at this

theorem dash_not_mem_natChars (n : Nat) : '-' ∉ natChars n := by
  unfold natChars
  split
  · decide
  · intro hmem
    rw [List.mem_reverse, List.mem_map] at hmem
    obtain ⟨d, hd, hEq⟩ := hmem
    have hd10 := digitsRev_lt_ten n n d hd
    interval_cases d <;> exact absurd hEq (by decide)

theorem strInt_intStr (i : Int) : strInt (intStr i) = i := by
  show intFromChars (intChars i) = i
  unfold intChars intFromChars
  by_cases hi : i < 0
  · simp only [hi, if_true, List.head?_cons, List.tail_cons, if_pos rfl, natFromChars_natChars]
    omega
  · rw [if_neg hi]
    have hhd : ¬((natChars i.natAbs).head? = some '-') := by
      intro h
      exact dash_not_mem_natChars _ (List.mem_of_mem_head? h)
    rw [if_neg hhd, natFromChars_natChars]
    omega

theorem natStr_injective : Function.Injective natStr := by
  intro a b h
  exact natChars_injective (String.ext_iff.mp h)

/-- FIPS 180-4 test vector: the SHA-256 digest of "abc". -/
theorem sha256Hex_abc :
    sha256Hex (asciiBytes "abc") =
      "ba7816bf8f01cfea414140de5dae2223b00361a396177a9cb410ff61f20015ad" := by decide

/-! ### Helper lemmas: registry invariant preservation -/

theorem mongo_update_first_inv (h : String) (t : Nat) :
    ∀ db : List FaceEmbeddingDoc, (∀ e ∈ db, identity_inv e ∧ e.first_seen ≤ t) →
      ∀ e ∈ mongo_update_first db h t, identity_inv e ∧ e.first_seen ≤ t := by
  intro db
  induction db with
  | nil => intro _ e he; simp [mongo_update_first] at he
  | cons a rest ih =>
    intro hall e he
    rw [mongo_update_first] at he
    by_cases hcase : a.embedding_hash = h
    · rw [if_pos hcase] at he
      rcases List.mem_cons.mp he with h1 | h1
      · subst h1
        have ha := hall a (List.mem_cons_self a rest)
        exact ⟨⟨Nat.succ_le_succ (Nat.zero_le _), ha.2⟩, ha.2⟩
      · exact hall e (List.mem_cons_of_mem _ h1)
    · rw [if_neg hcase] at he
      rcases List.mem_cons.mp he with h1 | h1
      · subst h1; exact hall _ (List.mem_cons_self _ _)
      · exact ih (fun x hx => hall x (List.mem_cons_of_mem _ hx)) e h1

theorem upsert_face_inv (h : String) (t : Nat) (db : List FaceEmbeddingDoc)
    (hall : ∀ e ∈ db, identity_inv e ∧ e.first_seen ≤ t) :
    ∀ e ∈ upsert_face db h t, identity_inv e ∧ e.first_seen ≤ t := by
  intro e he
  rw [upsert_face] at he
  split at he
  · exact mongo_update_first_inv h t db hall e he
  · rcases List.mem_append.mp he with h1 | h1
    · exact hall e h1
    · simp only [List.mem_singleton] at h1
      subst h1
      exact ⟨⟨le_rfl, le_rfl⟩, le_rfl⟩

theorem foldl_upsert_inv (t : Nat) :
    ∀ (fs : List FaceRecord) (db : List FaceEmbeddingDoc),
      (∀ e ∈ db, identity_inv e ∧ e.first_seen ≤ t) →
      ∀ e ∈ fs.foldl (fun db f => upsert_face db f.hash t) db,
        identity_inv e ∧ e.first_seen ≤ t := by
  intro fs
  induction fs with
  | nil => intro db hall; simpa using hall
  | cons f rest ih => intro db hall; exact ih _ (upsert_face_inv f.hash t db hall)

/-- Distinct indices give distinct `f"simulated_{i}"` placeholders. -/
theorem simulated_name_injective {i j : Nat}
    (h : "simulated_" ++ natStr i = "simulated_" ++ natStr j) : i = j := by
  have hd := String.ext_iff.mp h
  rw [String.data_append, String.data_append] at hd
  exact natChars_injective (List.append_cancel_left hd)

/-! ### Claims -/

/-- C4: for every integer N, after `simulate_count(N)` completes with no
intervening update, the next `get_current_count` query returns count N and
the next `websocket_live_count` tick carries count N — the manual count
round-trips through the Redis cell via `str`/`int`. -/
theorem C4_manual_count_round_trip (N : Int) (t1 t2 t3 : Nat) (st : ServerState) :
    get_current_count (.ok ((simulate_count N t1 st).2.current_count)) t2 =
      .ok { count := N, timestamp := t2 } ∧
    websocket_tick_message ((simulate_count N t1 st).2) t3 =
      { count := N, timestamp := t3 } := by
  have h := strInt_intStr N
  constructor
  · simp [simulate_count, get_current_count, h]
  · simp [simulate_count, websocket_tick_message, h]

/-- C6: the claim expects a 4xx client error for a non-decodable payload.
The try body does raise HTTPException 400 (second conjunct), but FastAPI's
HTTPException subclasses Exception, so the blanket `except Exception` on
lines 393-395 catches it and re-raises HTTPException 500 — the caller sees
a server error, not a client error.  The live count state is indeed left
unchanged. -/
theorem C6_decode_failure_yields_500_not_4xx (t : Nat) (st : ServerState) :
    process_frame none t st = (.httpError 500 "Frame processing failed", st) ∧
    process_frame_try none t st = (.httpError 400 "Invalid image format", st) :=
  ⟨rfl, rfl⟩

/-- C9 counterexample: a total storage outage during `get_current_count`
(the Redis read raising) is not surfaced as an error response; the handler
returns the successful default body `{"count": 0}`. -/
theorem C9_counterexample_storage_outage_returns_ok_zero :
    get_current_count (.error ()) 7 = .ok { count := 0, timestamp := 7 } := rfl

/-- C9 amended: a total storage outage during a current-count query is
caught by the bare `except` and silently converted into a successful
default response with count 0 (availability over consistency); no error
response is produced. -/
theorem C9_amended_storage_outage_silently_defaults (t : Nat) (e : Unit) :
    get_current_count (.error e) t = .ok { count := 0, timestamp := t } := rfl

/-- C1: the claim says `update_face_database` sets the live count to the
number of distinct fingerprints resolved from the frame.  Evaluating the
frame-ingest path on a frame with two detections carrying bit-identical
descriptors (e.g. two identical face regions, which produce the same
grayscale histogram): both observations resolve to the same fingerprint,
yet the code stores `unique_faces = len(face_data) = 2` — the observation
count, not the distinct-fingerprint count 1 (the variable is named
`unique_faces` but line 273 counts duplicates). -/
theorem C1_count_counts_observations_not_distinct_fingerprints :
    (update_face_database
        (process_frame_for_faces
          [{ bbox := [0, 0, 10, 10], descriptor := [1, 0] },
           { bbox := [20, 0, 10, 10], descriptor := [1, 0] }]) 1000 initialState).1 = 2 ∧
    ((process_frame_for_faces
        [{ bbox := [0, 0, 10, 10], descriptor := [1, 0] },
         { bbox := [20, 0, 10, 10], descriptor := [1, 0] }]).map
      FaceRecord.hash).dedup.length = 1 ∧
    (update_face_database
        (process_frame_for_faces
          [{ bbox := [0, 0, 10, 10], descriptor := [1, 0] },
           { bbox := [20, 0, 10, 10], descriptor := [1, 0] }]) 1000
        initialState).2.current_count = some (intStr 2) := by decide

/-- C2 counterexample: the descriptors [1, 0] and [2, 0] are parallel, so
their cosine similarity is 1, strictly above the 0.6 threshold, yet
resolving one and then the other mints two separate identities with two
distinct fingerprints (each with occurrence count 1 and no bump): the code
matches by exact SHA-256 equality and never computes any similarity. -/
theorem C2_counterexample_similar_descriptors_distinct_fingerprints :
    cos_sim_exceeds [1, 0] [2, 0] FACE_RECOGNITION_THRESHOLD ∧
    anonymize_face_embedding [1, 0] ≠ anonymize_face_embedding [2, 0] ∧
    ((update_face_database (process_frame_for_faces [{ bbox := [], descriptor := [2, 0] }]) 20
        ((update_face_database (process_frame_for_faces [{ bbox := [], descriptor := [1, 0] }])
          10 initialState).2)).2.face_embeddings.map FaceEmbeddingDoc.embedding_hash =
      [anonymize_face_embedding [1, 0], anonymize_face_embedding [2, 0]] ∧
     (update_face_database (process_frame_for_faces [{ bbox := [], descriptor := [2, 0] }]) 20
        ((update_face_database (process_frame_for_faces [{ bbox := [], descriptor := [1, 0] }])
          10 initialState).2)).2.face_embeddings.map FaceEmbeddingDoc.count = [1, 1]) := by
  refine ⟨⟨?_, ?_⟩, by decide⟩ <;>
    norm_num [dotQ, FACE_RECOGNITION_THRESHOLD, List.zip]

/-- C2 amended: the registry deduplicates by exact equality of the
anonymized fingerprint, not by similarity.  Resubmitting a bit-identical
descriptor reuses the existing identity: the registry keeps a single
record whose occurrence count is bumped to 2 and whose `last_seen` moves
to the later frame's time, while descriptors that differ at all — even
with cosine similarity above the configured threshold, which the code
never reads — resolve to different fingerprints and separate identities
(the counterexample above exhibits the latter). -/
theorem C2_amended_exact_hash_matching (d : List ℚ) (bb1 bb2 : List Nat) (t1 t2 : Nat) :
    (update_face_database (process_frame_for_faces [{ bbox := bb2, descriptor := d }]) t2
        ((update_face_database (process_frame_for_faces [{ bbox := bb1, descriptor := d }]) t1
          initialState).2)).2.face_embeddings =
      [{ embedding_hash := anonymize_face_embedding d, first_seen := t1, last_seen := t2,
         count := 2 }] := by
  simp [update_face_database, process_frame_for_faces, upsert_face, mongo_update_first,
    initialState]

/-- C3 counterexample: `simulate_count` accepts an arbitrary integer with
no validation, so injecting -1 makes the next current-count query return
the negative count -1, violating the unconditional `count ≥ 0` claim. -/
theorem C3_counterexample_negative_manual_count :
    get_current_count (.ok ((simulate_count (-1) 100 initialState).2.current_count)) 101 =
      .ok { count := -1, timestamp := 101 } ∧ (-1 : Int) < 0 := by decide

/-- C3 amended: the live count is nonnegative on every code path except a
manual injection of a negative integer: an absent Redis key defaults to 0,
a storage outage defaults to 0, the frame-ingest path always stores the
observation count (a nonnegative length), and a manual count N ≥ 0 is
read back as the nonnegative N.  Only `simulate_count` with negative N
(exhibited in the counterexample) breaks `count ≥ 0`. -/
theorem C3_amended_count_nonnegative (t u : Nat) (face_data : List FaceRecord)
    (st st' : ServerState) (N : Int) (hN : 0 ≤ N) :
    get_current_count (.ok none) t = .ok { count := 0, timestamp := t } ∧
    get_current_count (.error ()) t = .ok { count := 0, timestamp := t } ∧
    (get_current_count (.ok (update_face_database face_data t st).2.current_count) u =
        .ok { count := (face_data.length : Int), timestamp := u } ∧
      0 ≤ (face_data.length : Int)) ∧
    (get_current_count (.ok (simulate_count N t st').2.current_count) u =
        .ok { count := N, timestamp := u } ∧ 0 ≤ N) := by
  refine ⟨rfl, rfl, ⟨?_, Int.ofNat_nonneg _⟩, ⟨?_, hN⟩⟩
  · simp [update_face_database, get_current_count, strInt_intStr]
  · simp [simulate_count, get_current_count, strInt_intStr]

/-- C3 witness: the amended theorem applied at concrete inputs. -/
theorem C3_amended_count_nonnegative_witness :
    (0 : Int) ≤ 2 ∧
    get_current_count (.ok (simulate_count 2 30 initialState).2.current_count) 31 =
      .ok { count := 2, timestamp := 31 } :=
  ⟨by decide,
   (C3_amended_count_nonnegative 30 31 [] initialState initialState 2 (by decide)).2.2.2.1⟩

/-- C5: every Identity record satisfies `occurrence_count ≥ 1` and
`last_seen ≥ first_seen`.  First conjunct: `update_face_database`
preserves the invariant for every record, assuming the clock does not run
backwards (every existing record was first seen at or before the frame's
time).  Second conjunct: creation on first sighting appends a record with
count 1 and `first_seen = last_seen`.  Third conjunct: a subsequent match
bumps the count by one and moves `last_seen` to now. -/
theorem C5_identity_record_invariants (t : Nat) :
    (∀ (face_data : List FaceRecord) (st : ServerState),
        (∀ e ∈ st.face_embeddings, identity_inv e ∧ e.first_seen ≤ t) →
        ∀ e ∈ (update_face_database face_data t st).2.face_embeddings,
          identity_inv e ∧ e.first_seen ≤ t) ∧
    (∀ (db : List FaceEmbeddingDoc) (h : String),
        db.any (fun e => e.embedding_hash == h) = false →
        upsert_face db h t =
          db ++ [{ embedding_hash := h, first_seen := t, last_seen := t, count := 1 }]) ∧
    (∀ (e : FaceEmbeddingDoc) (rest : List FaceEmbeddingDoc),
        mongo_update_first (e :: rest) e.embedding_hash t =
          { e with last_seen := t, count := e.count + 1 } :: rest) := by
  refine ⟨?_, ?_, ?_⟩
  · intro face_data st hall e he
    exact foldl_upsert_inv t face_data st.face_embeddings hall e he
  · intro db h hfalse
    simp [upsert_face, hfalse]
  · intro e rest
    simp [mongo_update_first]

/-- C5 witness: the invariant theorem applied at a concrete first
sighting. -/
theorem C5_identity_record_invariants_witness :
    identity_inv { embedding_hash := "a", first_seen := 5, last_seen := 5, count := 1 } ∧
    upsert_face [] "a" 5 =
      [{ embedding_hash := "a", first_seen := 5, last_seen := 5, count := 1 }] := by
  have h := C5_identity_record_invariants 5
  refine ⟨?_, h.2.1 [] "a" rfl⟩
  have hmem := h.1 [{ hash := "a", bbox := [], confidence := 4 / 5 }] initialState
    (by simp [initialState])
  exact (hmem { embedding_hash := "a", first_seen := 5, last_seen := 5, count := 1 }
    (by decide)).1

/-- C7 counterexample: `broadcast` iterates the connection list with
`try/except: pass`; a failing send leaves the subscriber in the hub's
list (the claim says it is removed).  Delivery to the healthy subscriber
in the same cycle does succeed. -/
theorem C7_counterexample_failing_subscriber_not_removed :
    ConnectionManager.broadcast { count := 3, timestamp := 9 }
        [{ sid := 0, failing := true, inbox := [] },
         { sid := 1, failing := false, inbox := [] }] =
      [{ sid := 0, failing := true, inbox := [] },
       { sid := 1, failing := false, inbox := [{ count := 3, timestamp := 9 }] }] ∧
    { sid := 0, failing := true, inbox := [] } ∈
      ConnectionManager.broadcast { count := 3, timestamp := 9 }
        [{ sid := 0, failing := true, inbox := [] },
         { sid := 1, failing := false, inbox := [] }] := by decide

/-- C7 amended: during a broadcast, a send failure on one subscriber is
silently swallowed — the subscriber is not removed from the hub's list
(removal happens only in the websocket handler's own disconnect path) —
and it does not prevent or corrupt delivery of the same message to every
other subscriber in the same cycle: the subscriber list keeps the same
connections in the same order, every healthy subscriber receives the
message, and every failing subscriber is left exactly as it was. -/
theorem C7_amended_send_failure_swallowed_delivery_isolated (m : Msg)
    (conns : List Subscriber) :
    (ConnectionManager.broadcast m conns).map (fun c => (c.sid, c.failing)) =
      conns.map (fun c => (c.sid, c.failing)) ∧
    (∀ c ∈ conns, c.failing = false →
      { c with inbox := c.inbox ++ [m] } ∈ ConnectionManager.broadcast m conns) ∧
    (∀ c ∈ conns, c.failing = true → c ∈ ConnectionManager.broadcast m conns) := by
  refine ⟨?_, ?_, ?_⟩
  · rw [ConnectionManager.broadcast, List.map_map]
    apply List.map_congr_left
    intro c _
    by_cases hc : c.failing <;> simp [hc]
  · intro c hc hfail
    have heq : (fun c => if c.failing then c else { c with inbox := c.inbox ++ [m] }) c =
        { c with inbox := c.inbox ++ [m] } := by simp [hfail]
    exact heq ▸ List.mem_map_of_mem _ hc
  · intro c hc hfail
    have heq : (fun c => if c.failing then c else { c with inbox := c.inbox ++ [m] }) c = c := by
      simp [hfail]
    exact heq ▸ List.mem_map_of_mem _ hc

/-- C7 witness: the amended theorem applied to one failing and one healthy
subscriber. -/
theorem C7_amended_witness :
    { sid := 1, failing := false, inbox := ([] : List Msg) ++ [{ count := 3, timestamp := 9 }] } ∈
      ConnectionManager.broadcast { count := 3, timestamp := 9 }
        [{ sid := 0, failing := true, inbox := [] },
         { sid := 1, failing := false, inbox := [] }] ∧
    { sid := 0, failing := true, inbox := ([] : List Msg) } ∈
      ConnectionManager.broadcast { count := 3, timestamp := 9 }
        [{ sid := 0, failing := true, inbox := [] },
         { sid := 1, failing := false, inbox := [] }] := by
  have h := C7_amended_send_failure_swallowed_delivery_isolated { count := 3, timestamp := 9 }
    [{ sid := 0, failing := true, inbox := [] }, { sid := 1, failing := false, inbox := [] }]
  exact ⟨h.2.1 { sid := 1, failing := false, inbox := [] } (by decide) rfl,
         h.2.2 { sid := 0, failing := true, inbox := [] } (by decide) rfl⟩

/-- C8: the count-history query returns only snapshots whose timestamp is
within the last 24 hours, at most 100 of them, ordered newest first. -/
theorem C8_history_window_cap_newest_first (t : Nat) (st : ServerState) :
    (∀ s ∈ get_count_history t st, t - 24 * 3600 ≤ s.timestamp) ∧
    (get_count_history t st).length ≤ 100 ∧
    List.Pairwise (fun a b => b.timestamp ≤ a.timestamp) (get_count_history t st) := by
  have htrans : ∀ a b c : PeopleCountDoc,
      snapshot_le a b = true → snapshot_le b c = true → snapshot_le a c = true := by
    intro a b c hab hbc
    simp only [snapshot_le, decide_eq_true_eq] at hab hbc ⊢
    omega
  have htotal : ∀ a b : PeopleCountDoc, (snapshot_le a b || snapshot_le b a) = true := by
    intro a b
    simp only [snapshot_le, Bool.or_eq_true, decide_eq_true_eq]
    omega
  unfold get_count_history
  refine ⟨?_, List.length_take_le _ _, ?_⟩
  · intro s hs
    have h1 := (List.take_sublist 100 _).subset hs
    have h2 := (List.mergeSort_perm _ snapshot_le).mem_iff.mp h1
    exact of_decide_eq_true (List.mem_filter.mp h2).2
  · have hsorted := List.sorted_mergeSort htrans htotal
      (st.people_counts.filter fun s => decide (t - 24 * 3600 ≤ s.timestamp))
    have hsub := List.Pairwise.sublist (List.take_sublist 100 _) hsorted
    exact hsub.imp fun hab => of_decide_eq_true hab

/-- C8 witness: the history theorem applied to a state holding one fresh
snapshot. -/
theorem C8_history_window_cap_newest_first_witness :
    100000 - 24 * 3600 ≤ 100000 ∧
    (get_count_history 100000
        { face_embeddings := [],
          people_counts :=
            [{ count := 5, timestamp := 100000, zone_id := "default", anonymized_faces := [] }],
          current_count := none, connections := [] }).length ≤ 100 := by
  have h := C8_history_window_cap_newest_first 100000
    { face_embeddings := [],
      people_counts :=
        [{ count := 5, timestamp := 100000, zone_id := "default", anonymized_faces := [] }],
      current_count := none, connections := [] }
  refine ⟨h.1 { count := 5, timestamp := 100000, zone_id := "default", anonymized_faces := [] }
    ?_, h.2.1⟩
  unfold get_count_history
  simp

/-- C10: `simulate_count N` echoes back `{"status": "success", "count": N}`
and appends one snapshot whose `anonymized_faces` are exactly the
placeholders "simulated_0" … "simulated_{N-1}": the list has length N when
N ≥ 0, is empty when N ≤ 0 (Python's `range` of a non-positive integer is
empty), and its entries are pairwise distinct. -/
theorem C10_simulate_snapshot_placeholders (N : Int) (t : Nat) (st : ServerState) :
    (simulate_count N t st).1 = .ok { status := "success", count := N } ∧
    (simulate_count N t st).2.people_counts =
      st.people_counts ++
        [{ count := N, timestamp := t, zone_id := "default",
           anonymized_faces := (List.range N.toNat).map fun i => "simulated_" ++ natStr i }] ∧
    ((List.range N.toNat).map fun i => "simulated_" ++ natStr i).length = N.toNat ∧
    (0 ≤ N → (((List.range N.toNat).map fun i => "simulated_" ++ natStr i).length : Int) = N) ∧
    (N ≤ 0 → (List.range N.toNat).map (fun i => "simulated_" ++ natStr i) = []) ∧
    List.Pairwise (· ≠ ·) ((List.range N.toNat).map fun i => "simulated_" ++ natStr i) := by
  refine ⟨rfl, rfl, by simp, ?_, ?_, ?_⟩
  · intro hN
    simp [Int.toNat_of_nonneg hN]
  · intro hN
    have h0 : N.toNat = 0 := by omega
    simp [h0]
  · rw [List.pairwise_map]
    exact (List.pairwise_lt_range N.toNat).imp fun hlt heq =>
      absurd (simulated_name_injective heq) (Nat.ne_of_lt hlt)

/-- C10 witness: `simulate_count 3` echoes 3 and produces the three
distinct placeholders. -/
theorem C10_simulate_snapshot_placeholders_witness :
    (simulate_count 3 17 initialState).1 = .ok { status := "success", count := 3 } ∧
    (0 : Int) ≤ 3 ∧
    (((List.range (3 : Int).toNat).map fun i => "simulated_" ++ natStr i).length : Int) = 3 ∧
    ((3 : Int) ≤ 0 → (List.range (3 : Int).toNat).map (fun i => "simulated_" ++ natStr i) = []) := by
  have h := C10_simulate_snapshot_placeholders 3 17 initialState
  exact ⟨h.1, by decide, h.2.2.2.1 (by decide), h.2.2.2.2.1⟩
